/-
Verification of the ReadWise RAG pipeline (backend plan in
`RAG_IMPLEMENTATION_PLAN.md`) against its natural-language specification.

The Python services are shallowly embedded as pure Lean functions:
* external collaborators (embedding backend, Qdrant vector store, MongoDB,
  completion backend, langchain text splitter) are passed in as explicit
  function/outcome parameters;
* machine floats (similarity scores, progress) are modelled as rationals;
* wall-clock fields (`processing_time`, timestamps) and log output are not
  modelled;
* a fallible Python call is an `Except`-valued function, and an exception
  propagating out of a service is an `Except.error` result.
-/
import Mathlib

namespace ReadWise

/-! ## Configuration (`config/rag_config.py`)

`RAGConfig` holds the literal defaults of the Python `RAGConfig` model.  The
Qdrant host/port and API-key fields only parameterize the external clients and
are not part of the pure model.  Float-valued configuration entries
(`similarity_threshold`, `temperature`) are rationals, written in lowest terms
so that every field is a kernel-reducible literal. -/

structure RAGConfig where
  qdrant_collection_name : String := "readwise_books"
  embedding_model : String := "embedding-3"
  embedding_dimension : Nat := 2048
  chunk_size : Nat := 1000
  chunk_overlap : Nat := 200
  top_k : Nat := 5
  similarity_threshold : ℚ := ⟨7, 10, by norm_num, by norm_num⟩
  max_context_length : Nat := 4000
  temperature : ℚ := ⟨7, 10, by norm_num, by norm_num⟩
  max_tokens : Nat := 1000
  deriving Repr

/-- The module-level `rag_config = RAGConfig()` instance. -/
def rag_config : RAGConfig := {}

/-! ## Embedding service (`services/embedding_service.py`)

`EmbeddingService.create_embeddings` slices the input into batches of 100,
submits each batch to the OpenAI-compatible embeddings endpoint sequentially
(with an inter-batch `asyncio.sleep(0.1)`, which has no effect on values), and
concatenates the per-batch embedding lists.  The whole loop sits inside a
`try`/`except` whose handler logs and re-raises, so any error from a batch
call aborts the call and propagates unchanged.

The backend is modelled as `api : Nat → List String → Except ε (List (List ℚ))`
where the first argument is the index of the call (0-based), so that a backend
whose behaviour varies between calls — e.g. a transient failure — can be
expressed.  `create_embeddings_go` additionally returns how many backend calls
were performed, which the code itself does not track but which lets us state
call-count properties. -/

def create_embeddings_go {ε : Type} (api : Nat → List String → Except ε (List (List ℚ))) :
    Nat → List String → Except ε (List (List ℚ)) × Nat
  | _, [] => (Except.ok [], 0)
  | call_index, t :: ts =>
    match api call_index ((t :: ts).take 100) with
    | Except.error e => (Except.error e, 1)
    | Except.ok batch_embeddings =>
      match create_embeddings_go api (call_index + 1) ((t :: ts).drop 100) with
      | (Except.error e, n) => (Except.error e, n + 1)
      | (Except.ok rest, n) => (Except.ok (batch_embeddings ++ rest), n + 1)
termination_by _ l => l.length
decreasing_by simp only [List.length_drop, List.length_cons]; omega

/-- `EmbeddingService.create_embeddings(texts)`. -/
def create_embeddings {ε : Type} (api : Nat → List String → Except ε (List (List ℚ)))
    (texts : List String) : Except ε (List (List ℚ)) :=
  (create_embeddings_go api 0 texts).1

/-- `EmbeddingService.create_single_embedding(text)`: `create_embeddings([text])[0]`.
The `[0]` index is modelled by `List.head?`; `none` corresponds to the
`IndexError` the Python would raise on an empty result list. -/
def create_single_embedding {ε : Type} (api : Nat → List String → Except ε (List (List ℚ)))
    (text : String) : Except ε (Option (List ℚ)) :=
  (create_embeddings api [text]).map List.head?

/-- Unfolding lemma: with a backend that embeds every batch element by a pure
function `f`, the batch loop concatenates exactly `texts.map f` (the batch
slicing `texts[i:i+100]` partitions the input, and `extend` re-concatenates it
in order).  Stated for every starting call index; the second component counts
the backend calls made. -/
theorem create_embeddings_go_pure {ε : Type} (f : String → List ℚ) :
    ∀ N : Nat, ∀ texts : List String, texts.length ≤ N → ∀ call_index : Nat,
      ∃ n : Nat,
        create_embeddings_go (ε := ε) (fun _ batch => Except.ok (batch.map f)) call_index texts
          = (Except.ok (texts.map f), n) := by
  intro N
  induction N with
  | zero =>
    intro texts h call_index
    have hnil : texts = [] := List.eq_nil_of_length_eq_zero (Nat.le_zero.mp h)
    subst hnil
    exact ⟨0, by simp [create_embeddings_go]⟩
  | succ N ih =>
    intro texts h call_index
    match texts with
    | [] => exact ⟨0, by simp [create_embeddings_go]⟩
    | t :: ts =>
      have hlen : ((t :: ts).drop 100).length ≤ N := by
        simp only [List.length_drop, List.length_cons]
        simp only [List.length_cons] at h
        omega
      obtain ⟨n, hn⟩ := ih ((t :: ts).drop 100) hlen (call_index + 1)
      refine ⟨n + 1, ?_⟩
      simp only [create_embeddings_go, hn]
      rw [← List.map_append, List.take_append_drop]

/-- `create_embeddings` over a pure, always-succeeding backend is exactly
`List.map` of the per-text embedding. -/
theorem create_embeddings_pure {ε : Type} (f : String → List ℚ) (texts : List String) :
    create_embeddings (ε := ε) (fun _ batch => Except.ok (batch.map f)) texts
      = Except.ok (texts.map f) := by
  obtain ⟨n, hn⟩ := create_embeddings_go_pure (ε := ε) f texts.length texts le_rfl 0
  simp [create_embeddings, hn]

/-- If the backend call for the first batch fails, the loop stops after that
single call and returns that error unchanged. -/
theorem create_embeddings_go_error {ε : Type}
    (api : Nat → List String → Except ε (List (List ℚ)))
    (call_index : Nat) (t : String) (ts : List String) (e : ε)
    (hfail : api call_index ((t :: ts).take 100) = Except.error e) :
    create_embeddings_go api call_index (t :: ts) = (Except.error e, 1) := by
  have hfail' : api call_index (t :: ts.take 99) = Except.error e := by
    simpa using hfail
  simp [create_embeddings_go, hfail']

/-! ## Text processing (`utils/text_processing.py`)

`split_text_into_chunks` delegates the actual splitting to langchain's
`RecursiveCharacterTextSplitter` (an external library), scans each raw chunk
for a chapter heading with `extract_chapter_info` (a pure regex heuristic),
and assigns fresh `uuid4` ids.  These three external/nondeterministic pieces
are parameters:

* `split_text : String → List String` — `text_splitter.split_text`;
* `extract_chapter : String → String` — `extract_chapter_info(text)["chapter"]`
  (the Python function always returns a dict with a `"chapter"` key, either a
  matched heading or `"未知章节"`, so the `f"片段{i+1}"` default in the caller
  never fires);
* `uuid : Nat → String` — the id generated for the i-th chunk. -/

structure ChunkMetadata where
  chapter : String
  word_count : Nat
  book_title : String
  author : String
  deriving DecidableEq, Repr

/-- `DocumentChunk` of `models/vector_models.py` (the `created_at` timestamp
and the mutable `vector_id` column are not modelled). -/
structure DocumentChunk where
  id : String
  book_id : String
  chunk_index : Nat
  content : String
  metadata : ChunkMetadata
  deriving DecidableEq, Repr

def split_text_into_chunks (split_text : String → List String)
    (extract_chapter : String → String) (uuid : Nat → String)
    (content : String) (book_id : String)
    (book_metadata : Option (String × String)) : List DocumentChunk :=
  (split_text content).enum.map fun p =>
    { id := uuid p.1
      book_id := book_id
      chunk_index := p.1
      content := p.2.trim
      metadata :=
        { chapter := extract_chapter p.2
          word_count := p.2.length
          book_title := (book_metadata.map Prod.fst).getD ""
          author := (book_metadata.map Prod.snd).getD "" } }

/-- The documented guard of pymongo's `Collection.insert_many`, which
`_get_or_create_chunks` hits via `db.book_chunks.insert_many(chunk_docs)`:
an empty `documents` list raises `TypeError("documents must be a non-empty
list")` before anything is written.  Database failures other than this
documented client-side check are not modelled. -/
def insert_many_guard {α : Type} (documents : List α) : Except String Unit :=
  if documents.isEmpty then Except.error "documents must be a non-empty list"
  else Except.ok ()

/-! ## Vector service (`services/vector_service.py`)

### The index at query time

`VectorService.search_similar` embeds the query, then issues one Qdrant
`search` call with a server-side `book_id` payload filter, `limit = top_k`
and `score_threshold = rag_config.similarity_threshold`.  We model the state
of the collection *as seen by that one query* as a list of `ScoredPoint`:
each stored point's payload together with `score`, the cosine similarity the
backend computes between the stored vector and the query embedding.
`qdrant_search` is the documented semantics of the backend call as invoked
here: keep only the requested book's points, order by descending similarity,
drop hits below the threshold, and truncate to `limit`.  (On a
descending-ordered list, thresholding and truncation commute, so the
modelling order is immaterial.)  Failure of the query-embedding step or of
the backend itself makes the whole `search_similar` call raise; that is
modelled at the caller (`generate_response`), which receives the entire
search outcome as an `Except` value. -/

structure ScoredPoint where
  id : String
  book_id : String
  content : String
  metadata : ChunkMetadata
  chunk_index : Nat
  book_title : String
  author : String
  score : ℚ
  deriving DecidableEq, Repr

/-- `SearchResult` of `models/vector_models.py`: what `search_similar` builds
from each returned point (`book_info = {"title": ..., "author": ...}` is
flattened into the two string fields). -/
structure SearchResult where
  chunk_id : String
  content : String
  score : ℚ
  metadata : ChunkMetadata
  book_title : String
  author : String
  deriving DecidableEq, Repr

/-- Descending similarity order on stored points. -/
def byScoreDesc (a b : ScoredPoint) : Prop := b.score ≤ a.score

instance : DecidableRel byScoreDesc :=
  fun a b => inferInstanceAs (Decidable (b.score ≤ a.score))

instance : IsTotal ScoredPoint byScoreDesc := ⟨fun a b => le_total b.score a.score⟩

instance : IsTrans ScoredPoint byScoreDesc := ⟨fun _ _ _ h1 h2 => le_trans h2 h1⟩

def qdrant_search (index : List ScoredPoint) (book_id : String) (limit : Nat)
    (score_threshold : ℚ) : List ScoredPoint :=
  ((((index.filter fun p => p.book_id == book_id).insertionSort byScoreDesc).filter
      fun p => decide (score_threshold ≤ p.score)).take limit)

def to_search_result (p : ScoredPoint) : SearchResult :=
  { chunk_id := p.id, content := p.content, score := p.score, metadata := p.metadata,
    book_title := p.book_title, author := p.author }

/-- `VectorService.search_similar(query, book_id, top_k)`: `top_k = none`
models the Python default `top_k=None`, replaced by `rag_config.top_k`. -/
def search_similar (index : List ScoredPoint) (book_id : String) (top_k : Option Nat)
    (cfg : RAGConfig) : List SearchResult :=
  (qdrant_search index book_id (top_k.getD cfg.top_k) cfg.similarity_threshold).map
    to_search_result

/-! ### Writing to the index (`VectorService._process_chunks`)

`_process_chunks` embeds every chunk's content through
`EmbeddingService.create_embeddings`, builds one Qdrant `PointStruct` per
`(chunk, embedding)` pair produced by Python's `zip`, and upserts the whole
batch.  The subsequent `vector_id` book-keeping writes to `db.book_chunks`
have no observable effect on the pipeline's results and are not modelled.
Note that no step inspects the length of the returned vectors. -/

/-- A Qdrant `PointStruct` as assembled by `_process_chunks`: id, raw vector,
and the payload fields written there. -/
structure IndexPoint where
  id : String
  vector : List ℚ
  book_id : String
  content : String
  metadata : ChunkMetadata
  chunk_index : Nat
  book_title : String
  author : String
  deriving DecidableEq, Repr

def to_index_point (chunk : DocumentChunk) (embedding : List ℚ) : IndexPoint :=
  { id := chunk.id
    vector := embedding
    book_id := chunk.book_id
    content := chunk.content
    metadata := chunk.metadata
    chunk_index := chunk.chunk_index
    book_title := chunk.metadata.book_title
    author := chunk.metadata.author }

/-- The point-building half of `_process_chunks` (everything before the
`client.upsert` call). -/
def process_chunks_points (api : Nat → List String → Except String (List (List ℚ)))
    (chunks : List DocumentChunk) : Except String (List IndexPoint) :=
  match create_embeddings api (chunks.map fun c => c.content) with
  | Except.error e => Except.error e
  | Except.ok embeddings =>
    Except.ok ((chunks.zip embeddings).map fun p => to_index_point p.1 p.2)

/-- `VectorService._process_chunks(book_id, chunks)`; `upsert` is the external
Qdrant `client.upsert` call. -/
def process_chunks (api : Nat → List String → Except String (List (List ℚ)))
    (upsert : List IndexPoint → Except String Unit)
    (chunks : List DocumentChunk) : Except String Unit :=
  match process_chunks_points api chunks with
  | Except.error e => Except.error e
  | Except.ok points => upsert points

/-! ### The vectorization run (`VectorService.vectorize_book`)

The book row in MongoDB is modelled by `BookRecord` (only the fields the
pipeline reads).  The status updates `vectorize_book` performs on
`db.books` are recorded as an ordered `List StatusWrite` trace — timestamps
(`vectorize_started_at`, `vectorize_completed_at`) are not modelled.  The
external pieces are parameters:

* `book?` — the `db.books.find_one({"id": book_id})` result;
* `existing_chunks` — the `db.book_chunks.find({"book_id": book_id})` rows;
* `read_result` — the outcome of `self._read_book_content(book["file_path"])`;
* `split_text`, `extract_chapter`, `uuid` — as in `split_text_into_chunks`;
* `api`, `upsert` — embedding backend and Qdrant upsert.

When the book row is absent, the `except` handler's failed-status update
matches no document, so no effective status write happens on that path. -/

structure BookRecord where
  id : String
  file_path : String
  title : Option String := none
  author : Option String := none
  vector_status : Option String := none
  deriving DecidableEq, Repr

/-- One `db.books.update_one` status update performed by `vectorize_book`. -/
inductive StatusWrite
  | processing
  | completed (chunk_count : Nat)
  | failed (error_message : String)
  deriving DecidableEq, Repr

/-- The exception leaving `vectorize_book`: the explicit
`ValueError(f"书籍不存在: {book_id}")`, or any error raised by a pipeline
step (carried as its message string). -/
inductive VectorizeError
  | valueError (msg : String)
  | pipelineError (msg : String)
  deriving DecidableEq, Repr

/-- `VectorizeStatus` of `models/vector_models.py` (datetime and
`error_message` fields omitted: errors are re-raised, and the early-return
and success paths never set `error_message`). -/
structure VectorizeStatus where
  book_id : String
  status : String
  progress : ℚ
  total_chunks : Option Nat := none
  processed_chunks : Option Nat := none
  deriving DecidableEq, Repr

/-- `VectorService._get_or_create_chunks(book_id, book)`. -/
def get_or_create_chunks (existing_chunks : List DocumentChunk)
    (split_text : String → List String) (extract_chapter : String → String)
    (uuid : Nat → String) (read_result : Except String String)
    (book_id : String) : Except String (List DocumentChunk) :=
  if existing_chunks.isEmpty then
    match read_result with
    | Except.error e => Except.error e
    | Except.ok content =>
      let chunks := split_text_into_chunks split_text extract_chapter uuid content book_id none
      match insert_many_guard chunks with
      | Except.error e => Except.error e
      | Except.ok _ => Except.ok chunks
  else Except.ok existing_chunks

/-- `VectorService.vectorize_book(book_id, force_reprocess)`.  Returns the
value/exception of the call together with the trace of status updates it
wrote to `db.books`. -/
def vectorize_book (book_id : String) (book? : Option BookRecord) (force_reprocess : Bool)
    (existing_chunks : List DocumentChunk)
    (split_text : String → List String) (extract_chapter : String → String)
    (uuid : Nat → String) (read_result : Except String String)
    (api : Nat → List String → Except String (List (List ℚ)))
    (upsert : List IndexPoint → Except String Unit) :
    Except VectorizeError VectorizeStatus × List StatusWrite :=
  match book? with
  | none => (Except.error (VectorizeError.valueError ("书籍不存在: " ++ book_id)), [])
  | some book =>
    if ¬ force_reprocess ∧ book.vector_status = some "completed" then
      (Except.ok { book_id := book_id, status := "completed", progress := 1 }, [])
    else
      match get_or_create_chunks existing_chunks split_text extract_chapter uuid
          read_result book_id with
      | Except.error e =>
        (Except.error (VectorizeError.pipelineError e),
         [StatusWrite.processing, StatusWrite.failed e])
      | Except.ok chunks =>
        match process_chunks api upsert chunks with
        | Except.error e =>
          (Except.error (VectorizeError.pipelineError e),
           [StatusWrite.processing, StatusWrite.failed e])
        | Except.ok _ =>
          (Except.ok { book_id := book_id, status := "completed", progress := 1,
                       total_chunks := some chunks.length,
                       processed_chunks := some chunks.length },
           [StatusWrite.processing, StatusWrite.completed chunks.length])

/-! ## RAG service (`services/rag_service.py`)

`RAGService.generate_response` wraps its whole body in `try`/`except`: on any
exception from retrieval, prompt construction or the completion call it logs
and returns a fixed-apology `RAGResponse` instead of raising.  Its external
interactions are parameters:

* `search` — the outcome of the whole
  `vector_service.search_similar(query, book_id, top_k=max_context_chunks)`
  call (an error covers both a query-embedding failure and a backend search
  failure);
* `book_lookup` — the outcome of `db.books.find_one` inside `_build_prompt`;
* `completion` — `openai_client.chat_completion` on the rendered prompt.

The returned `Nat` counts the completion-backend calls the run performed;
the code does not track this, but the spec's call-count properties need it.
`processing_time` (wall clock) and `conversation_history` (unused by the
code) are not modelled. -/

/-- `ContextChunk` of `models/rag_models.py`. -/
structure ContextChunk where
  content : String
  source : String
  relevance_score : ℚ
  metadata : ChunkMetadata
  deriving DecidableEq, Repr

def to_context_chunk (result : SearchResult) : ContextChunk :=
  { content := result.content
    source := "《" ++ result.book_title ++ "》"
    relevance_score := result.score
    metadata := result.metadata }

/-- The accumulation loop of `RAGService._build_context`: `total_length`
starts at 0 and the loop `break`s at the first hit whose content would push
the accumulated length past `max_context_length`. -/
def build_context_go (max_context_length : Nat) :
    List SearchResult → Nat → List ContextChunk
  | [], _ => []
  | result :: rest, total_length =>
    if max_context_length < total_length + result.content.length then []
    else
      to_context_chunk result ::
        build_context_go max_context_length rest (total_length + result.content.length)

/-- `RAGService._build_context(search_results, request)` (the `request`
argument is unused by the Python body; the length budget comes from
`rag_config.max_context_length`, here a parameter). -/
def build_context (search_results : List SearchResult) (max_context_length : Nat) :
    List ContextChunk :=
  build_context_go max_context_length search_results 0

/-- `RAGRequest` of `models/rag_models.py` (`conversation_history` and
`include_metadata` are never read by the service). -/
structure RAGRequest where
  query : String
  book_id : String
  max_context_chunks : Nat := 5
  deriving DecidableEq, Repr

/-- Chapter fragments joined by `_build_prompt`:
`"\n\n".join(f"片段{i+1}：{chunk.content}" for ...)`. -/
def context_text (context_chunks : List ContextChunk) : String :=
  String.intercalate "\n\n"
    (context_chunks.enum.map fun p => "片段" ++ toString (p.1 + 1) ++ "：" ++ p.2.content)

/-- `RAGService._build_prompt(request, context_chunks)`, with the result of
the `db.books.find_one` lookup passed in. -/
def build_prompt (query : String) (book? : Option BookRecord)
    (context_chunks : List ContextChunk) : String :=
  let book_title :=
    match book? with
    | none => "未知书籍"
    | some book => book.title.getD "未知书籍"
  let book_author :=
    match book? with
    | none => "未知作者"
    | some book => book.author.getD "未知作者"
  "\n基于以下来自《" ++ book_title ++ "》（作者：" ++ book_author ++
    "）的内容片段，回答用户的问题。\n\n相关内容片段：\n" ++ context_text context_chunks ++
    "\n\n用户问题：" ++ query ++
    "\n\n请基于上述内容片段回答问题，要求：\n1. 回答要准确、相关，直接基于提供的内容\n2. 如果内容片段不足以完全回答问题，请说明\n3. 保持回答的自然和易懂\n4. 可以适当引用原文\n\n回答："

/-- Python `response.endswith(('。', '！', '？', '.', '!', '?'))`. -/
def ends_with_terminal (s : String) : Bool :=
  match s.data.getLast? with
  | some c => ['。', '！', '？', '.', '!', '?'].contains c
  | none => false

/-- Python `str.strip()`: drop leading and trailing whitespace.  (This is
semantically `String.trim`, but written as structural recursion over the
character list so that concrete instances reduce in the kernel.) -/
def py_strip (s : String) : String :=
  String.mk (((s.data.dropWhile Char.isWhitespace).reverse.dropWhile
    Char.isWhitespace).reverse)

/-- `RAGService._post_process_response(response)`. -/
def post_process_response (response : String) : String :=
  let stripped := py_strip response
  if ends_with_terminal stripped then stripped else stripped ++ "。"

/-- One entry of the `sources` list assembled in `generate_response`
(`content[:200] + "..."`, the relevance score, the chunk metadata). -/
structure SourcePreview where
  content : String
  score : ℚ
  metadata : ChunkMetadata
  deriving DecidableEq, Repr

/-- `RAGResponse` of `models/rag_models.py` (`processing_time` not modelled;
`confidence_score` is never assigned by the service and stays `None`). -/
structure RAGResponse where
  response : String
  sources : List SourcePreview
  confidence_score : Option ℚ := none
  context_used : Nat
  deriving DecidableEq, Repr

/-- The fixed reply returned when the similarity search yields no hits. -/
def no_content_response : RAGResponse :=
  { response := "抱歉，我在这本书中没有找到与您问题相关的内容。"
    sources := []
    context_used := 0 }

/-- The fixed reply the `except` handler returns on any internal exception. -/
def error_response : RAGResponse :=
  { response := "抱歉，处理您的问题时出现了错误，请稍后重试。"
    sources := []
    context_used := 0 }

/-- `RAGService.generate_response(request)`. -/
def generate_response (request : RAGRequest)
    (search : Except String (List SearchResult))
    (book_lookup : Except String (Option BookRecord))
    (completion : String → Except String String)
    (cfg : RAGConfig) : RAGResponse × Nat :=
  match search with
  | Except.error _ => (error_response, 0)
  | Except.ok search_results =>
    if search_results.isEmpty then (no_content_response, 0)
    else
      let context_chunks := build_context search_results cfg.max_context_length
      match book_lookup with
      | Except.error _ => (error_response, 0)
      | Except.ok book? =>
        let prompt := build_prompt request.query book? context_chunks
        match completion prompt with
        | Except.error _ => (error_response, 1)
        | Except.ok raw =>
          let final_response := post_process_response raw
          let sources := context_chunks.map fun chunk =>
            { content := chunk.content.take 200 ++ "..."
              score := chunk.relevance_score
              metadata := chunk.metadata : SourcePreview }
          ({ response := final_response, sources := sources,
             context_used := context_chunks.length }, 1)

/-! ## Chat endpoint (`chat.py`, `send_book_message`)

The route handler looks the book up, rejects a missing book with HTTP 404 and
a not-`completed` `vector_status` with HTTP 400, and only then builds the
`RAGRequest` and calls `rag_service.generate_response`.  The chat-transcript
inserts (`db.chat_messages`) and the generated message ids are outside the
core and not modelled.  `rag` is the outcome of the
`generate_response` invocation paired with the number of embedding/completion
backend calls that invocation performs; because the handler raises before
reaching that call on the 404/400 paths, the handler's own backend-call count
(the returned `Nat`) is 0 there by construction. -/

inductive HttpError
  | http (status_code : Nat) (detail : String)
  deriving DecidableEq, Repr

/-- The JSON body returned by `send_book_message` (ids and wall-clock
metadata omitted). -/
structure ChatOut where
  response : String
  sources : List SourcePreview
  sources_count : Nat
  context_used : Nat
  deriving DecidableEq, Repr

/-- `send_book_message(request, db)`. -/
def send_book_message (book? : Option BookRecord) (rag : RAGResponse × Nat) :
    Except HttpError ChatOut × Nat :=
  match book? with
  | none => (Except.error (HttpError.http 404 "书籍不存在"), 0)
  | some book =>
    if book.vector_status ≠ some "completed" then
      (Except.error (HttpError.http 400 "书籍尚未完成向量化处理，请先进行向量化"), 0)
    else
      (Except.ok { response := rag.1.response, sources := rag.1.sources,
                   sources_count := rag.1.sources.length,
                   context_used := rag.1.context_used }, rag.2)

/-! ## Helper lemmas -/

/-- Total content length of an assembled context. -/
def context_total_length : List ContextChunk → Nat
  | [] => 0
  | chunk :: rest => chunk.content.length + context_total_length rest

theorem build_context_go_budget (mcl : Nat) :
    ∀ results : List SearchResult, ∀ total : Nat, total ≤ mcl →
      total + context_total_length (build_context_go mcl results total) ≤ mcl := by
  intro results
  induction results with
  | nil => intro total h; simpa [build_context_go, context_total_length] using h
  | cons r rest ih =>
    intro total h
    by_cases hc : mcl < total + r.content.length
    · simpa [build_context_go, hc, context_total_length] using h
    · have h2 : total + r.content.length ≤ mcl := Nat.le_of_not_lt hc
      have h3 := ih (total + r.content.length) h2
      simp only [build_context_go, if_neg hc, context_total_length, to_context_chunk]
      omega

theorem build_context_go_prefix (mcl : Nat) :
    ∀ results : List SearchResult, ∀ total : Nat,
      build_context_go mcl results total
        = (results.take (build_context_go mcl results total).length).map to_context_chunk := by
  intro results
  induction results with
  | nil => intro total; simp [build_context_go]
  | cons r rest ih =>
    intro total
    by_cases hc : mcl < total + r.content.length
    · simp [build_context_go, hc]
    · simp only [build_context_go, if_neg hc, List.length_cons, List.take_succ_cons,
        List.map_cons, List.cons.injEq, true_and]
      exact ih (total + r.content.length)

/-- Zipping a list with its own image under `g` and then combining is a
single map. -/
theorem zip_map_snd_map {α β γ : Type} (g : α → β) (h2 : α → β → γ) :
    ∀ l : List α, (l.zip (l.map g)).map (fun p => h2 p.1 p.2) = l.map fun a => h2 a (g a) := by
  intro l
  induction l with
  | nil => rfl
  | cons c cs ih => simp only [List.map_cons, List.zip_cons_cons, ih]

/-! ## Claims -/

/-- Claim C3: for every ordered list of search hits and every
`maxContextLength`, the context assembler's output has total content length
at most the budget, and equals a prefix of the hit list mapped whole (in
input order, never truncating a hit's content) into context chunks. -/
theorem build_context_budget_and_order (results : List SearchResult)
    (max_context_length : Nat) :
    context_total_length (build_context results max_context_length) ≤ max_context_length ∧
    build_context results max_context_length
      = (results.take (build_context results max_context_length).length).map
          to_context_chunk := by
  constructor
  · simpa [build_context] using
      build_context_go_budget max_context_length results 0 (Nat.zero_le _)
  · exact build_context_go_prefix max_context_length results 0

/-- Claim C4: the embedding gateway is order-preserving 1:1 across its
internal batches-of-100 loop — over a backend embedding each text by `f`,
`create_embeddings texts` succeeds with exactly `texts.map f` (same length,
i-th output the embedding of `texts[i]`), and `create_single_embedding text`
is the single element of `create_embeddings [text]`. -/
theorem create_embeddings_order_preserving (f : String → List ℚ) (texts : List String)
    (text : String) :
    create_embeddings (ε := String) (fun _ batch => Except.ok (batch.map f)) texts
      = Except.ok (texts.map f) ∧
    (texts.map f).length = texts.length ∧
    (∀ i : Nat, (texts.map f)[i]? = (texts[i]?).map f) ∧
    create_single_embedding (ε := String) (fun _ batch => Except.ok (batch.map f)) text
      = Except.ok (some (f text)) := by
  refine ⟨create_embeddings_pure f texts, texts.length_map f, fun i => ?_, ?_⟩
  · simp
  · simp only [create_single_embedding, create_embeddings_pure f [text]]
    rfl

/-- Claim C10 (implicit): `generate_response` never propagates an internal
exception — a failing similarity search, book lookup, or completion call
each produce the normally-shaped fixed-apology response with empty sources
and `context_used = 0` (and the completion-call count shows where the run
stopped). -/
theorem generate_response_catches_all_errors (request : RAGRequest) (cfg : RAGConfig)
    (e : String) :
    (∀ (book_lookup : Except String (Option BookRecord))
       (completion : String → Except String String),
       generate_response request (Except.error e) book_lookup completion cfg
         = (error_response, 0)) ∧
    (∀ (hit : SearchResult) (rest : List SearchResult)
       (completion : String → Except String String),
       generate_response request (Except.ok (hit :: rest)) (Except.error e) completion cfg
         = (error_response, 0)) ∧
    (∀ (hit : SearchResult) (rest : List SearchResult) (book? : Option BookRecord),
       generate_response request (Except.ok (hit :: rest)) (Except.ok book?)
         (fun _ => Except.error e) cfg
         = (error_response, 1)) := by
  refine ⟨fun book_lookup completion => ?_, fun hit rest completion => ?_,
    fun hit rest book? => ?_⟩
  · simp [generate_response]
  · simp [generate_response]
  · simp [generate_response]

/-- A hit whose content is one character longer than the default
`max_context_length = 4000`, so the context assembler drops it. -/
def oversize_content : String := String.mk (List.replicate 4001 'a')

def scenario_meta : ChunkMetadata :=
  { chapter := "未知章节", word_count := 0, book_title := "", author := "" }

def oversize_hit : SearchResult :=
  { chunk_id := "c1", content := oversize_content,
    score := ⟨9, 10, by norm_num, by norm_num⟩,
    metadata := scenario_meta, book_title := "T", author := "A" }

def cex_request : RAGRequest := { query := "q", book_id := "B1" }

/-- Claim C1, counterexample: with one search hit whose content exceeds the
context budget, the assembled context is empty, yet `generate_response` does
NOT return the fixed "no relevant content found" fallback and calls the
completion backend once — the short circuit keys on the search result list,
not on the assembled context. -/
theorem generate_response_budget_drop_calls_llm :
    build_context [oversize_hit] rag_config.max_context_length = [] ∧
    (generate_response cex_request (Except.ok [oversize_hit]) (Except.ok none)
        (fun _ => Except.ok "Answer") rag_config).2 = 1 ∧
    (generate_response cex_request (Except.ok [oversize_hit]) (Except.ok none)
        (fun _ => Except.ok "Answer") rag_config).1.response
      ≠ no_content_response.response ∧
    (generate_response cex_request (Except.ok [oversize_hit]) (Except.ok none)
        (fun _ => Except.ok "Answer") rag_config).1.context_used = 0 := by
  have hlen : oversize_hit.content.length = 4001 := by
    have h : oversize_hit.content.length = (List.replicate 4001 'a').length := rfl
    rw [h, List.length_replicate]
  have hbc : build_context [oversize_hit] rag_config.max_context_length = [] := by
    simp only [build_context, build_context_go, hlen]
    norm_num [rag_config]
  have hgen : generate_response cex_request (Except.ok [oversize_hit]) (Except.ok none)
      (fun _ => Except.ok "Answer") rag_config
        = ({ response := post_process_response "Answer", sources := [],
             context_used := 0 }, 1) := by
    simp [generate_response, hbc]
  refine ⟨hbc, ?_, ?_, ?_⟩
  · rw [hgen]
  · rw [hgen]
    decide
  · rw [hgen]

/-- Claim C1, amended: the fixed fallback (empty sources, `contextUsed = 0`,
zero completion calls) is returned exactly when the similarity search yields
an empty hit list; when search returns at least one hit, the completion
backend is called once even if the context budget drops every hit. -/
theorem generate_response_empty_search_short_circuit (request : RAGRequest)
    (book_lookup : Except String (Option BookRecord))
    (completion : String → Except String String) (cfg : RAGConfig) :
    generate_response request (Except.ok []) book_lookup completion cfg
      = (no_content_response, 0) ∧
    ∀ (hit : SearchResult) (rest : List SearchResult) (book? : Option BookRecord)
      (completion2 : String → Except String String),
      (generate_response request (Except.ok (hit :: rest)) (Except.ok book?)
          completion2 cfg).2 = 1 := by
  constructor
  · simp [generate_response]
  · intro hit rest book? completion2
    simp only [generate_response, List.isEmpty_cons, Bool.false_eq_true, if_false]
    cases h : completion2 (build_prompt request.query book?
        (build_context (hit :: rest) cfg.max_context_length)) <;> simp [h]

/-! Scenario index for claim C2: three "B1" points with similarities
0.9 / 0.75 / 0.5 and two "B2" points with similarity 0.95, deliberately
interleaved out of order. -/

def scenario_b1_hi : ScoredPoint :=
  { id := "b1-1", book_id := "B1", content := "甲", metadata := scenario_meta,
    chunk_index := 0, book_title := "", author := "",
    score := ⟨9, 10, by norm_num, by norm_num⟩ }

def scenario_b1_mid : ScoredPoint :=
  { id := "b1-2", book_id := "B1", content := "乙", metadata := scenario_meta,
    chunk_index := 1, book_title := "", author := "",
    score := ⟨3, 4, by norm_num, by norm_num⟩ }

def scenario_b1_lo : ScoredPoint :=
  { id := "b1-3", book_id := "B1", content := "丙", metadata := scenario_meta,
    chunk_index := 2, book_title := "", author := "",
    score := ⟨1, 2, by norm_num, by norm_num⟩ }

def scenario_b2_a : ScoredPoint :=
  { id := "b2-1", book_id := "B2", content := "丁", metadata := scenario_meta,
    chunk_index := 0, book_title := "", author := "",
    score := ⟨19, 20, by norm_num, by norm_num⟩ }

def scenario_b2_b : ScoredPoint :=
  { id := "b2-2", book_id := "B2", content := "戊", metadata := scenario_meta,
    chunk_index := 1, book_title := "", author := "",
    score := ⟨19, 20, by norm_num, by norm_num⟩ }

def scenario_index : List ScoredPoint :=
  [scenario_b2_a, scenario_b1_lo, scenario_b1_hi, scenario_b2_b, scenario_b1_mid]

/-- Claim C2: `search_similar` returns only points whose payload book id is
the requested one, ordered by descending similarity, truncated to at most
`topK`, every returned score at least the threshold; and on the spec's
scenario index (B1 scoring 0.9/0.75/0.5, B2 scoring 0.95 twice, topK 5,
threshold 0.7) it returns exactly the two B1 hits ordered [0.9, 0.75]. -/
theorem search_similar_filters_orders_truncates (index : List ScoredPoint)
    (bid : String) (k : Nat) (cfg : RAGConfig) :
    (∀ p ∈ qdrant_search index bid k cfg.similarity_threshold, p.book_id = bid) ∧
    List.Sorted (fun a b : SearchResult => b.score ≤ a.score)
      (search_similar index bid (some k) cfg) ∧
    (search_similar index bid (some k) cfg).length ≤ k ∧
    (∀ r ∈ search_similar index bid (some k) cfg, cfg.similarity_threshold ≤ r.score) ∧
    search_similar scenario_index "B1" (some 5) rag_config
      = [to_search_result scenario_b1_hi, to_search_result scenario_b1_mid] := by
  refine ⟨?_, ?_, ?_, ?_, ?_⟩
  · intro p hp
    simp only [qdrant_search] at hp
    have h1 : p ∈ (index.filter fun q => q.book_id == bid).insertionSort byScoreDesc :=
      List.mem_of_mem_filter ((List.take_sublist _ _).subset hp)
    have h2 : p ∈ index.filter fun q => q.book_id == bid :=
      (List.perm_insertionSort byScoreDesc _).subset h1
    exact eq_of_beq (List.mem_filter.mp h2).2
  · have hs : List.Sorted byScoreDesc
        ((index.filter fun q => q.book_id == bid).insertionSort byScoreDesc) :=
      List.sorted_insertionSort byScoreDesc _
    have hs2 : List.Sorted byScoreDesc (qdrant_search index bid k cfg.similarity_threshold) :=
      List.Pairwise.sublist (List.take_sublist _ _) (List.Pairwise.filter _ hs)
    simp only [search_similar, Option.getD_some]
    exact List.pairwise_map.mpr hs2
  · simp only [search_similar, Option.getD_some, List.length_map, qdrant_search,
      List.length_take]
    exact Nat.min_le_left _ _
  · intro r hr
    simp only [search_similar, Option.getD_some, List.mem_map] at hr
    obtain ⟨p, hp, hr⟩ := hr
    simp only [qdrant_search] at hp
    have h2 := (List.mem_filter.mp ((List.take_sublist _ _).subset hp)).2
    have h3 : cfg.similarity_threshold ≤ p.score := of_decide_eq_true h2
    rw [← hr]
    exact h3
  · decide

/-- Witness for claim C2 at the scenario input: the top hit belongs to "B1"
and clears the threshold, the hit count respects `topK`, and the result is
exactly the two B1 hits in descending order. -/
theorem search_similar_filters_orders_truncates_witness :
    scenario_b1_hi.book_id = "B1" ∧
    rag_config.similarity_threshold ≤ (to_search_result scenario_b1_hi).score ∧
    (search_similar scenario_index "B1" (some 5) rag_config).length ≤ 5 ∧
    search_similar scenario_index "B1" (some 5) rag_config
      = [to_search_result scenario_b1_hi, to_search_result scenario_b1_mid] := by
  have H := search_similar_filters_orders_truncates scenario_index "B1" 5 rag_config
  refine ⟨H.1 scenario_b1_hi (by decide),
    H.2.2.2.1 (to_search_result scenario_b1_hi) ?_, H.2.2.1, H.2.2.2.2⟩
  rw [H.2.2.2.2]
  exact List.mem_cons_self _ _

/-- The transport-level failure used to exercise the gateway's error path. -/
inductive TransportError
  | timeout
  deriving DecidableEq, Repr

/-- A backend whose first call fails and whose every later call succeeds: a
gateway that retried a failed batch even once would succeed against it. -/
def flaky_api : Nat → List String → Except TransportError (List (List ℚ)) :=
  fun call_index batch =>
    if call_index = 0 then Except.error TransportError.timeout
    else Except.ok (batch.map fun _ => [1])

/-- Claim C5, counterexample: one failing batch call aborts the whole
`create_embeddings` call after exactly one backend attempt, surfacing the raw
transport error itself — there is no retry, no backoff, and no typed
exhausted-retries wrapper (a retrying gateway would have succeeded here,
since `flaky_api` succeeds from its second call on). -/
theorem create_embeddings_single_attempt_cex :
    create_embeddings flaky_api ["文本1"] = Except.error TransportError.timeout ∧
    (create_embeddings_go flaky_api 0 ["文本1"]).2 = 1 := by
  have h := create_embeddings_go_error flaky_api 0 "文本1" [] TransportError.timeout rfl
  exact ⟨by simp [create_embeddings, h], by simp [h]⟩

/-- Claim C5, amended: when the backend call for a batch fails, the gateway
does not retry it — the whole `embed` call fails immediately after that
single attempt, propagating the raw error unchanged, and no vector list
(partial or otherwise) is returned. -/
theorem create_embeddings_no_retry_fail_fast {ε : Type}
    (api : Nat → List String → Except ε (List (List ℚ)))
    (t : String) (ts : List String) (e : ε)
    (hfail : api 0 ((t :: ts).take 100) = Except.error e) :
    create_embeddings api (t :: ts) = Except.error e ∧
    (create_embeddings_go api 0 (t :: ts)).2 = 1 := by
  have h := create_embeddings_go_error api 0 t ts e hfail
  exact ⟨by simp [create_embeddings, h], by simp [h]⟩

/-- Witness for the amended claim C5, at a concrete failing backend. -/
theorem create_embeddings_no_retry_fail_fast_witness :
    create_embeddings flaky_api ["文本2"] = Except.error TransportError.timeout ∧
    (create_embeddings_go flaky_api 0 ["文本2"]).2 = 1 :=
  create_embeddings_no_retry_fail_fast flaky_api "文本2" [] TransportError.timeout rfl

/-- A book row whose `vector_status` reads `"processing"`. -/
def processing_book : BookRecord :=
  { id := "B1", file_path := "b1.pdf", vector_status := some "processing" }

/-- A book row with no `vector_status` yet. -/
def fresh_book : BookRecord := { id := "B1", file_path := "b1.pdf" }

/-- A pre-existing chunk row for the concrete pipeline runs. -/
def cex_chunk : DocumentChunk :=
  { id := "ch1", book_id := "B1", chunk_index := 0, content := "第一章 内容",
    metadata := { chapter := "第一章", word_count := 7, book_title := "", author := "" } }

/-- An embedding backend that always succeeds. -/
def unit_api : Nat → List String → Except String (List (List ℚ)) :=
  fun _ batch => Except.ok (batch.map fun _ => [1])

/-- A Qdrant upsert that always succeeds. -/
def ok_upsert : List IndexPoint → Except String Unit := fun _ => Except.ok ()

/-- Claim C6, counterexample: with the book's status record already reading
`"processing"`, `vectorize_book` is not rejected with any Conflict error —
it overwrites the status record (a `"processing"` write, then a
`"completed"` write) and runs the whole pipeline again to completion. -/
theorem vectorize_book_processing_not_rejected_cex :
    vectorize_book "B1" (some processing_book) false [cex_chunk]
        (fun _ => []) (fun _ => "未知章节") (fun _ => "u") (Except.ok "")
        unit_api ok_upsert
      = (Except.ok { book_id := "B1", status := "completed", progress := 1,
                     total_chunks := some 1, processed_chunks := some 1 },
         [StatusWrite.processing, StatusWrite.completed 1]) := by
  have hchunks : get_or_create_chunks [cex_chunk] (fun _ => ([] : List String))
      (fun _ => "未知章节") (fun _ => "u") (Except.ok "") "B1" = Except.ok [cex_chunk] := by
    simp [get_or_create_chunks]
  have hproc : process_chunks unit_api ok_upsert [cex_chunk] = Except.ok () := by
    simp [process_chunks, process_chunks_points, create_embeddings, create_embeddings_go,
      unit_api, ok_upsert]
  simp [vectorize_book, processing_book, hchunks, hproc]

/-- Claim C6, amended: a vectorization run requested while the status record
reads `"processing"` proceeds exactly as for a book with no prior status —
the status record is overwritten (first write: `"processing"`) and the
pipeline runs again; there is no Conflict rejection path. -/
theorem vectorize_book_processing_reruns_pipeline (book_id : String) (b : BookRecord)
    (force : Bool) (existing : List DocumentChunk)
    (split_text : String → List String) (extract_chapter : String → String)
    (uuid : Nat → String) (read_result : Except String String)
    (api : Nat → List String → Except String (List (List ℚ)))
    (upsert : List IndexPoint → Except String Unit)
    (h : b.vector_status = some "processing") :
    vectorize_book book_id (some b) force existing split_text extract_chapter uuid
        read_result api upsert
      = vectorize_book book_id (some { b with vector_status := none }) force existing
          split_text extract_chapter uuid read_result api upsert ∧
    (vectorize_book book_id (some b) force existing split_text extract_chapter uuid
        read_result api upsert).2.head? = some StatusWrite.processing := by
  have hc1 : ¬ (¬ force ∧ b.vector_status = some "completed") := by
    intro hx
    rw [h] at hx
    simp at hx
  have hc2 : ¬ (¬ force ∧
      ({ b with vector_status := none } : BookRecord).vector_status = some "completed") := by
    simp
  constructor
  · simp only [vectorize_book]
    rw [if_neg hc1, if_neg hc2]
  · simp only [vectorize_book]
    rw [if_neg hc1]
    rcases hg : get_or_create_chunks existing split_text extract_chapter uuid
        read_result book_id with e | chunks
    · simp [hg]
    · rcases hp : process_chunks api upsert chunks with e | u
      · simp [hg, hp]
      · simp [hg, hp]

/-- Witness for the amended claim C6: a concrete mid-`"processing"` run that
proceeds like a fresh run and begins by overwriting the status record. -/
theorem vectorize_book_processing_reruns_pipeline_witness :
    (vectorize_book "B1" (some processing_book) false [cex_chunk] (fun _ => [])
        (fun _ => "未知章节") (fun _ => "u") (Except.ok "") unit_api ok_upsert
      = vectorize_book "B1" (some { processing_book with vector_status := none }) false
          [cex_chunk] (fun _ => []) (fun _ => "未知章节") (fun _ => "u") (Except.ok "")
          unit_api ok_upsert) ∧
    (vectorize_book "B1" (some processing_book) false [cex_chunk] (fun _ => [])
        (fun _ => "未知章节") (fun _ => "u") (Except.ok "") unit_api ok_upsert).2.head?
      = some StatusWrite.processing :=
  vectorize_book_processing_reruns_pipeline "B1" processing_book false [cex_chunk]
    (fun _ => []) (fun _ => "未知章节") (fun _ => "u") (Except.ok "") unit_api ok_upsert rfl

/-- Claim C7: a chat request for a book whose vectorization status is not
`"completed"` fails fast with the typed HTTP 400 error and performs zero
embedding/completion backend calls — no partial or empty answer is returned
as if valid. -/
theorem send_book_message_not_ready_fails_fast (book : BookRecord)
    (rag : RAGResponse × Nat) (h : book.vector_status ≠ some "completed") :
    send_book_message (some book) rag
      = (Except.error (HttpError.http 400 "书籍尚未完成向量化处理，请先进行向量化"), 0) := by
  simp [send_book_message, h]

/-- Witness for claim C7 at a concrete `"processing"` book. -/
theorem send_book_message_not_ready_fails_fast_witness :
    send_book_message (some processing_book) (no_content_response, 7)
      = (Except.error (HttpError.http 400 "书籍尚未完成向量化处理，请先进行向量化"), 0) :=
  send_book_message_not_ready_fails_fast processing_book (no_content_response, 7)
    (by decide)

/-- Claim C8: whenever a vectorization run raises an unrecoverable error, the
run records exactly a `"processing"` write followed by a `"failed"` write
carrying the error message, never a `"completed"` write, and the error is
re-raised; and a zero-chunk run (empty or whitespace-only extracted text,
where the splitter yields no chunks) is such an error — the empty
`insert_many` is rejected by the database driver, so the run ends failed,
not completed. -/
theorem vectorize_book_unrecoverable_error_fails (book_id : String) (b : BookRecord)
    (force : Bool) (existing : List DocumentChunk)
    (split_text : String → List String) (extract_chapter : String → String)
    (uuid : Nat → String) (read_result : Except String String)
    (api : Nat → List String → Except String (List (List ℚ)))
    (upsert : List IndexPoint → Except String Unit) :
    (∀ msg : String,
      (vectorize_book book_id (some b) force existing split_text extract_chapter uuid
          read_result api upsert).1 = Except.error (VectorizeError.pipelineError msg) →
      (vectorize_book book_id (some b) force existing split_text extract_chapter uuid
          read_result api upsert).2
        = [StatusWrite.processing, StatusWrite.failed msg] ∧
      ∀ n : Nat, StatusWrite.completed n
        ∉ (vectorize_book book_id (some b) force existing split_text extract_chapter uuid
            read_result api upsert).2) ∧
    (∀ content : String, read_result = Except.ok content → split_text content = [] →
      existing = [] → (force = true ∨ b.vector_status ≠ some "completed") →
      (vectorize_book book_id (some b) force existing split_text extract_chapter uuid
          read_result api upsert).1
        = Except.error (VectorizeError.pipelineError "documents must be a non-empty list") ∧
      (vectorize_book book_id (some b) force existing split_text extract_chapter uuid
          read_result api upsert).2
        = [StatusWrite.processing, StatusWrite.failed "documents must be a non-empty list"]) := by
  constructor
  · intro msg hmsg
    simp only [vectorize_book] at hmsg ⊢
    by_cases hc : ¬ force ∧ b.vector_status = some "completed"
    · rw [if_pos hc] at hmsg
      exact absurd hmsg (by simp)
    · rw [if_neg hc] at hmsg ⊢
      rcases hg : get_or_create_chunks existing split_text extract_chapter uuid
          read_result book_id with e | chunks
      · simp only [hg] at hmsg ⊢
        simp at hmsg
        subst hmsg
        exact ⟨rfl, by simp⟩
      · rcases hp : process_chunks api upsert chunks with e | u
        · simp only [hg, hp] at hmsg ⊢
          simp at hmsg
          subst hmsg
          exact ⟨rfl, by simp⟩
        · simp only [hg, hp] at hmsg
          simp at hmsg
  · intro content hread hsplit hexist hforce
    subst hread
    subst hexist
    have hcond : ¬ (¬ force ∧ b.vector_status = some "completed") := by
      rcases hforce with hf | hs
      · intro hx
        rw [hf] at hx
        exact hx.1 rfl
      · exact fun hx => hs hx.2
    have hchunks : get_or_create_chunks [] split_text extract_chapter uuid
        (Except.ok content) book_id = Except.error "documents must be a non-empty list" := by
      simp [get_or_create_chunks, split_text_into_chunks, hsplit, insert_many_guard]
    refine ⟨?_, ?_⟩ <;>
      · simp only [vectorize_book]
        rw [if_neg hcond]
        simp [hchunks]

/-- Witness for claim C8: the concrete zero-chunk run (empty extracted text)
ends with the failed write and the re-raised error, with no completed write
anywhere in its trace. -/
theorem vectorize_book_unrecoverable_error_fails_witness :
    (vectorize_book "B1" (some fresh_book) false [] (fun _ => []) (fun _ => "未知章节")
        (fun _ => "u") (Except.ok "") unit_api ok_upsert).1
      = Except.error (VectorizeError.pipelineError "documents must be a non-empty list") ∧
    (vectorize_book "B1" (some fresh_book) false [] (fun _ => []) (fun _ => "未知章节")
        (fun _ => "u") (Except.ok "") unit_api ok_upsert).2
      = [StatusWrite.processing, StatusWrite.failed "documents must be a non-empty list"] ∧
    ∀ n : Nat, StatusWrite.completed n
      ∉ (vectorize_book "B1" (some fresh_book) false [] (fun _ => []) (fun _ => "未知章节")
          (fun _ => "u") (Except.ok "") unit_api ok_upsert).2 := by
  have H := vectorize_book_unrecoverable_error_fails "B1" fresh_book false []
    (fun _ => []) (fun _ => "未知章节") (fun _ => "u") (Except.ok "") unit_api ok_upsert
  obtain ⟨h1, h2⟩ := H.2 "" rfl rfl rfl (Or.inr (by decide))
  exact ⟨h1, h2, (H.1 _ h1).2⟩

/-- Claim C9, counterexample: a backend returning a 2-dimensional vector
(while the configured dimension is 2048) is forwarded to the index upsert
unchanged and without any error — no dimension validation happens before
insertion in the repository code. -/
theorem process_chunks_no_dimension_validation_cex :
    process_chunks_points (fun _ _ => Except.ok [[1, 1]]) [cex_chunk]
      = Except.ok [to_index_point cex_chunk [1, 1]] ∧
    (to_index_point cex_chunk [1, 1]).vector.length ≠ rag_config.embedding_dimension ∧
    process_chunks (fun _ _ => Except.ok [[1, 1]]) ok_upsert [cex_chunk]
      = Except.ok () := by
  have h : process_chunks_points (fun _ _ => Except.ok [[(1 : ℚ), 1]]) [cex_chunk]
      = Except.ok [to_index_point cex_chunk [1, 1]] := by
    simp [process_chunks_points, create_embeddings, create_embeddings_go, to_index_point]
  exact ⟨h, by decide, by simp [process_chunks, h, ok_upsert]⟩

/-- Claim C9, amended: the pipeline performs no dimension validation —
whatever vectors the embedding backend returns are zipped with the chunks
and passed to the index upsert unchanged, whatever their length; enforcing
the configured dimension is left entirely to the external vector store. -/
theorem process_chunks_forwards_vectors_unvalidated (f : String → List ℚ)
    (chunks : List DocumentChunk) :
    process_chunks_points (fun _ batch => Except.ok (batch.map f)) chunks
      = Except.ok (chunks.map fun c => to_index_point c (f c.content)) := by
  have h := create_embeddings_pure (ε := String) f (chunks.map fun c => c.content)
  simp only [process_chunks_points, h, List.map_map]
  congr 1
  have hz := zip_map_snd_map (f ∘ fun c => c.content)
    (fun c embedding => to_index_point c embedding) chunks
  simpa [Function.comp] using hz

end ReadWise
